import Mathlib

/-!
Verification development for the MCP help-request server
(context capture & ticket submission pipeline).

The JavaScript source is shallowly embedded: JSON-like runtime values
become the inductive `Json`; file-system and network effects become
explicit environment parameters (`ScanEnv`, `FileInfo` maps,
`HttpResponse`); each source function becomes a total Lean function of
the same name.  JavaScript string operations are modelled on the
underlying character lists (`String.data`) so that every definition
evaluates inside the kernel.
-/

namespace MCP

/-! ### JavaScript string primitives -/

/-- Length of a JS string, counted in characters (models `s.length`). -/
def jsStrLen (s : String) : Nat := s.data.length

/-- Models `s.toLowerCase()` (character-wise lowering). -/
def jsToLowerCase (s : String) : String := String.mk (s.data.map Char.toLower)

/-- Models `s.includes(sub)`: `sub` occurs contiguously inside `s`. -/
def jsIncludes (s sub : String) : Bool :=
  (List.range (s.data.length + 1)).any (fun i => List.isPrefixOf sub.data (s.data.drop i))

/-- Models `s.substring(0, n)`: the first `n` characters of `s`. -/
def jsSubstring (s : String) (n : Nat) : String := String.mk (s.data.take n)

/-- Models `content.split('\n').length`: one more than the number of
newline characters. -/
def jsSplitLinesCount (s : String) : Nat := 1 + s.data.countP (fun c => c == '\n')

/-! ### JSON values

JavaScript runtime objects that flow through the pipeline are modelled
as `Json` trees.  An absent property is `Option.none` at the lookup
level (modelling `undefined`), while an explicit JSON `null` is
`Json.null`. -/

inductive Json where
  | str (s : String)
  | num (n : Int)
  | bool (b : Bool)
  | null
  | arr (elems : List Json)
  | obj (fields : List (String × Json))

/-- Property lookup on an object (models `v[k]` / `v.k`; `none` is
`undefined`). -/
def jsonGet : Json → String → Option Json
  | .obj fs, k => fs.lookup k
  | _, _ => none

/-- Optional-chaining path lookup (models `v?.k1?.k2...`). -/
def getPath (j : Json) : List String → Option Json
  | [] => some j
  | k :: ks =>
    match jsonGet j k with
    | some v => getPath v ks
    | none => none

/-- JS truthiness of a value (`null`, `false`, `0` and `""` are falsy). -/
def jsTruthy : Json → Bool
  | .str s => s ≠ ""
  | .num n => n ≠ 0
  | .bool b => b
  | .null => false
  | .arr _ => true
  | .obj _ => true

/-- Models `a || b` on a possibly-undefined left operand. -/
def jsOr (a : Option Json) (b : Option Json) : Option Json :=
  match a with
  | some v => if jsTruthy v then some v else b
  | none => b

/-- Extracts a JS string value (`none` when absent or not a string). -/
def jsonAsStr : Option Json → Option String
  | some (.str s) => some s
  | _ => none

/-- Models the JS `String(v)` conversion on primitive values (the only
values the source converts this way). -/
def jsString : Json → String
  | .str s => s
  | .num n => toString n
  | .bool b => toString b
  | .null => "null"
  | .arr _ => ""
  | .obj _ => "[object Object]"

/-- Models `String(v || dflt)` where `dflt` stringifies to `dfltStr`. -/
def jsOrString (a : Option Json) (dfltStr : String) : String :=
  match a with
  | some v => if jsTruthy v then jsString v else dfltStr
  | none => dfltStr

/-- JSON string escaping for `JSON.stringify` (quote, backslash and the
common control characters). -/
def jsonEscapeChar (c : Char) : String :=
  if c = '"' then "\\\x22"
  else if c = '\\' then "\\\\"
  else if c = '\n' then "\\n"
  else if c = '\t' then "\\t"
  else if c = '\r' then "\\r"
  else String.mk [c]

/-- A JSON-quoted string literal. -/
def jsonQuote (s : String) : String :=
  "\x22" ++ String.join (s.data.map jsonEscapeChar) ++ "\x22"

mutual
/-- Models compact `JSON.stringify(v)`. -/
def jsonStringify : Json → String
  | .str s => jsonQuote s
  | .num n => toString n
  | .bool b => toString b
  | .null => "null"
  | .arr xs => "[" ++ jsonStringifyElems xs ++ "]"
  | .obj fs => "\x7b" ++ jsonStringifyFields fs ++ "\x7d"

def jsonStringifyElems : List Json → String
  | [] => ""
  | [x] => jsonStringify x
  | x :: xs => jsonStringify x ++ "," ++ jsonStringifyElems xs

def jsonStringifyFields : List (String × Json) → String
  | [] => ""
  | [(k, v)] => jsonQuote k ++ ":" ++ jsonStringify v
  | (k, v) :: fs => jsonQuote k ++ ":" ++ jsonStringify v ++ "," ++ jsonStringifyFields fs
end

mutual
/-- Models `JSON.stringify(v, null, 2)`; `ind` is the indentation of the
enclosing line. -/
def jsonStringify2 (ind : String) : Json → String
  | .str s => jsonQuote s
  | .num n => toString n
  | .bool b => toString b
  | .null => "null"
  | .arr [] => "[]"
  | .arr xs => "[\n" ++ jsonStringify2Elems (ind ++ "  ") xs ++ "\n" ++ ind ++ "]"
  | .obj [] => "\x7b\x7d"
  | .obj fs => "\x7b\n" ++ jsonStringify2Fields (ind ++ "  ") fs ++ "\n" ++ ind ++ "\x7d"

def jsonStringify2Elems (ind : String) : List Json → String
  | [] => ""
  | [x] => ind ++ jsonStringify2 ind x
  | x :: xs => ind ++ jsonStringify2 ind x ++ ",\n" ++ jsonStringify2Elems ind xs

def jsonStringify2Fields (ind : String) : List (String × Json) → String
  | [] => ""
  | [(k, v)] => ind ++ jsonQuote k ++ ": " ++ jsonStringify2 ind v
  | (k, v) :: fs =>
    ind ++ jsonQuote k ++ ": " ++ jsonStringify2 ind v ++ ",\n" ++ jsonStringify2Fields ind fs
end

/-! ### Ticket transformer (`src/api/helpRequestAPI.js`, and the
`transformArgsToTicket` variant) -/

structure Ticket where
  title : String
  description : String
  priority : String
  metadata : List (String × String)

/-- Models `helpContext.diagnostics?.errors?.length` when the errors
value is an array, `0` otherwise (JS: `undefined > 0` is false and
`!!undefined` is false, so one count serves both uses). -/
def diagErrorsLen (helpContext : Json) : Nat :=
  match getPath helpContext ["diagnostics", "errors"] with
  | some (.arr xs) => xs.length
  | _ => 0

/-- Models `helpContext.conversation?.messages?.length || 0`. -/
def conversationLen (helpContext : Json) : Nat :=
  match getPath helpContext ["conversation", "messages"] with
  | some (.arr xs) => xs.length
  | _ => 0

/-- The issue description as the source reads it:
`helpContext.issue?.description` (a string, or absent). -/
def issueDescrOf (helpContext : Json) : Option String :=
  jsonAsStr (getPath helpContext ["issue", "description"])

/-- Models
`helpContext.issue?.description?.toLowerCase().includes('urgent') ||
 helpContext.issue?.description?.toLowerCase().includes('critical')`. -/
def hasUrgentKeyword (helpContext : Json) : Bool :=
  match issueDescrOf helpContext with
  | some d => jsIncludes (jsToLowerCase d) "urgent" || jsIncludes (jsToLowerCase d) "critical"
  | none => false

/-- Models `helpContext.issue?.description || 'Development assistance
requested'` (the `||` also replaces an empty string). -/
def jsIssueDesc (helpContext : Json) : String :=
  match issueDescrOf helpContext with
  | some d => if d = "" then "Development assistance requested" else d
  | none => "Development assistance requested"

/-- `transformHelpContextToTicket` from `src/api/helpRequestAPI.js`. -/
def transformHelpContextToTicket (helpContext : Json) : Ticket :=
  let priority0 := "medium"
  let priority1 := if diagErrorsLen helpContext > 0 then "high" else priority0
  let priority := if hasUrgentKeyword helpContext then "urgent" else priority1
  let issueDesc := jsIssueDesc helpContext
  let title := "Development Help Request - " ++ jsSubstring issueDesc 30
      ++ (if jsStrLen issueDesc > 30 then "..." else "")
  let finalTitle := if jsStrLen title ≥ 5 then title else "Development Help Request"
  let finalDescription :=
    if jsStrLen issueDesc ≥ 10 then issueDesc
    else "Development assistance requested for user issue"
  { title := finalTitle
    description := finalDescription
    priority := priority
    metadata :=
      [ ("rawContext", jsonStringify helpContext)
      , ("sessionId", jsOrString (getPath helpContext ["session", "sessionId"]) "")
      , ("timestamp", jsOrString (getPath helpContext ["session", "timestamp"]) "")
      , ("hasErrors", toString (decide (diagErrorsLen helpContext ≠ 0)))
      , ("conversationLength", toString (conversationLen helpContext))
      , ("workspaceFiles", jsOrString (getPath helpContext ["workspace", "totalFiles"]) "0") ] }

/-- `transformArgsToTicket` from the sibling variant of the API module
(`src/unnamed/part_007`): priority is left at its `'medium'` default and
the description is the issue description verbatim. -/
def transformArgsToTicket (args : Json) : Ticket :=
  let priority := "medium"
  let issueDesc := jsIssueDesc args
  let title := jsSubstring issueDesc 30 ++ (if jsStrLen issueDesc > 30 then "..." else "")
  let finalTitle := if jsStrLen title ≥ 5 then title else "Development Help Request"
  let metadata :=
    match args with
    | .obj fs => fs.map (fun kv => (kv.1, jsonStringify kv.2))
    | _ => []
  { title := finalTitle
    description := issueDesc
    priority := priority
    metadata := metadata }

/-! ### Workspace scanner (`src/utils/workspace.js`, `captureWorkspaceState`)

File-system effects are made explicit: `ScanEnv.pathOk` is the
`fs.pathExists` answer for the root, `globFiles` is the list the `glob`
call enumerates (in enumeration order) or `none` when enumeration
throws, and `mtime` is the per-file `fs.stat` modification time, `none`
when the stat fails. -/

structure ScanEnv where
  pathOk : Bool
  globFiles : Option (List String)
  mtime : String → Option Int

/-- Splits a character list at a separator character. -/
def splitOnCharAux (sep : Char) : List Char → List Char → List (List Char)
  | [], acc => [acc.reverse]
  | c :: cs, acc =>
    if c = sep then acc.reverse :: splitOnCharAux sep cs []
    else splitOnCharAux sep cs (c :: acc)

/-- Models `path.extname(file)`: the suffix of the basename from its
last dot, empty when the basename has no dot or starts with its only
dot. -/
def jsExtname (file : String) : String :=
  let base := ((splitOnCharAux '/' file.data []).getLastD [])
  match ((List.range base.length).filter (fun i => base.getD i ' ' == '.')).getLast? with
  | some i => if i = 0 then "" else String.mk (base.drop i)
  | none => ""

/-- One step of the `fileTypes` frequency table: increment the count of
key `k`, inserting it at the end when new (JS object semantics). -/
def bumpCount : List (String × Nat) → String → List (String × Nat)
  | [], k => [(k, 1)]
  | (k', n) :: t, k =>
    if k' = k then (k', n + 1) :: t else (k', n) :: bumpCount t k

/-- One iteration of the `files.forEach` classification loop: the file
is counted under `path.extname(file) || 'no-extension'`. -/
def classifyStep (m : List (String × Nat)) (f : String) : List (String × Nat) :=
  bumpCount m (if jsExtname f = "" then "no-extension" else jsExtname f)

/-- The `fileTypes` table: every enumerated file classified under
`path.extname(file) || 'no-extension'`. -/
def fileTypesOf (files : List String) : List (String × Nat) :=
  files.foldl classifyStep []

/-- Models the `fileStats` stage: stat the first 20 enumerated files and
silently drop the ones whose stat failed (`filter(Boolean)`). -/
def fileStatsOf (env : ScanEnv) (files : List String) : List (String × Int) :=
  (files.take 20).filterMap (fun f => (env.mtime f).map (fun t => (f, t)))

/-- Insertion step of a stable sort by modification time, newest
first. -/
def insertByMtime (x : String × Int) : List (String × Int) → List (String × Int)
  | [] => [x]
  | y :: ys => if y.2 ≤ x.2 then x :: y :: ys else y :: insertByMtime x ys

/-- Models `.sort((a, b) => b.mtime - a.mtime)` (a stable descending
sort). -/
def sortByMtimeDescending (l : List (String × Int)) : List (String × Int) :=
  l.foldr insertByMtime []

/-- The `recentFiles` computation: sort the stat'd sample descending by
mtime, keep the first 10, forget the times. -/
def recentFilesOf (env : ScanEnv) (files : List String) : List String :=
  ((sortByMtimeDescending (fileStatsOf env files)).take 10).map (fun p => p.1)

/-- The modification time the environment reports for a file, defaulted
to `0` (only used to state ordering facts about files that were
successfully stat'd). -/
def mtimeD (env : ScanEnv) (f : String) : Int := (env.mtime f).getD 0

/-- The total of a frequency table's counts. -/
def sumCounts (m : List (String × Nat)) : Nat := (m.map (fun kv => kv.2)).sum

structure WorkspaceState where
  totalFiles : Nat
  fileTypes : List (String × Nat)
  recentFiles : List String
  dirStructure : Json

/-- `captureWorkspaceState` from `src/utils/workspace.js`.  Returns
`none` when the root is falsy or absent, or when enumeration throws
(the surrounding `try`/`catch` turns any error into a logged warning
and a `null` return); otherwise builds the workspace state from the
enumerated files.  The `structure` field is initialized to `{}` and
never filled in. -/
def captureWorkspaceState (env : ScanEnv) (workspacePath : String) : Option WorkspaceState :=
  if workspacePath = "" ∨ env.pathOk = false then none
  else
    match env.globFiles with
    | none => none
    | some files =>
      some { totalFiles := files.length
             fileTypes := fileTypesOf files
             recentFiles := recentFilesOf env files
             dirStructure := .obj [] }

/-! ### Content sampler (`src/utils/workspace.js`,
`captureActiveFilesContent`) -/

/-- The file system as the sampler sees one path: existence, size,
content, and whether handling the file throws (with the error
message). -/
structure FileInfo where
  present : Bool
  size : Nat
  content : String
  readFails : Option String

/-- One entry of the sampler's result map. -/
inductive FileSample where
  | sampled (size : Nat) (lines : Nat) (content : String)
  | tooLarge (size : Nat)
  | failed (message : String)
  deriving DecidableEq

/-- Models `workspacePath ? path.join(workspacePath, file) : file`. -/
def joinPath (root : Option String) (f : String) : String :=
  match root with
  | some r => if r = "" then f else r ++ "/" ++ f
  | none => f

/-- How the sampler handles a single file: an error gives an `{error}`
entry, an absent file gives no entry, a small file gives
`{size, lines, content}` with the content truncated to 2000 characters,
and a file of at least 50000 bytes gives `{size, note}`. -/
def sampleOne (info : FileInfo) : Option FileSample :=
  match info.readFails with
  | some msg => some (.failed msg)
  | none =>
    if info.present then
      if info.size < 50000 then
        some (.sampled info.size (jsSplitLinesCount info.content) (jsSubstring info.content 2000))
      else some (.tooLarge info.size)
    else none

/-- JS object key assignment `m[k] = v`: replace in place when the key
exists, append otherwise. -/
def jsSetKey {α : Type} : List (String × α) → String → α → List (String × α)
  | [], k, v => [(k, v)]
  | (k', v') :: t, k, v =>
    if k' = k then (k', v) :: t else (k', v') :: jsSetKey t k v

/-- One iteration of the sampler's `for ... of activeFiles.slice(0, 5)`
loop: handle file `f` on its own and record the outcome (if any) under
its key. -/
def sampleStep (root : Option String) (fsE : String → FileInfo)
    (acc : List (String × FileSample)) (f : String) : List (String × FileSample) :=
  match sampleOne (fsE (joinPath root f)) with
  | some s => jsSetKey acc f s
  | none => acc

/-- `captureActiveFilesContent` from `src/utils/workspace.js`: `none`
for a non-array argument models the `!activeFiles || !Array.isArray`
guard; otherwise the first 5 paths are handled independently via
`sampleOne`. -/
def captureActiveFilesContent (activeFiles : Option (List String)) (root : Option String)
    (fsE : String → FileInfo) : List (String × FileSample) :=
  match activeFiles with
  | none => []
  | some files => (files.take 5).foldl (sampleStep root fsE) []

/-! ### Context compiler (`src/tools/helpRequest.js`,
`requestHelpTool.execute`) -/

/-- The ambient effects of one `execute` call: the scanner's and
sampler's file-system views, the generated UUID, the clock, and the
process environment defaults. -/
structure ExecEnv where
  scanEnv : ScanEnv
  fileEnv : String → FileInfo
  freshUuid : String
  now : String
  nodeVersion : String
  platform : String
  cwd : String

/-- Models `args.session?.sessionId || uuidv4()`. -/
def sessionIdOf (args : Json) (env : ExecEnv) : String :=
  match getPath args ["session", "sessionId"] with
  | some v => if jsTruthy v then (jsonAsStr (some v)).getD env.freshUuid else env.freshUuid
  | none => env.freshUuid

/-- Models `args.session?.timestamp || new Date().toISOString()`. -/
def timestampOf (args : Json) (env : ExecEnv) : String :=
  match getPath args ["session", "timestamp"] with
  | some v => if jsTruthy v then (jsonAsStr (some v)).getD env.now else env.now
  | none => env.now

/-- Models `if (args.workspace?.rootPath)`: the scan root when it is a
truthy value. -/
def scanRootOf (args : Json) : Option String :=
  match getPath args ["workspace", "rootPath"] with
  | some v => if jsTruthy v then jsonAsStr (some v) else none
  | none => none

/-- The `workspaceState` local of `execute`: scan only when a truthy
root path was supplied. -/
def compiledScanState (args : Json) (env : ExecEnv) : Option WorkspaceState :=
  match scanRootOf args with
  | some r => captureWorkspaceState env.scanEnv r
  | none => none

/-- Models `args.workspace.files.map((f) => f.path)` guarded by
`if (args.workspace?.files)`. -/
def activeFilePathsOf (args : Json) : Option (List String) :=
  match getPath args ["workspace", "files"] with
  | some (.arr xs) => some (xs.filterMap (fun x => jsonAsStr (jsonGet x "path")))
  | some v => if jsTruthy v then some [] else none
  | none => none

/-- The encoding of a scan result as the JSON stored in the record
(field order as in the source object literal). -/
def WorkspaceState.toJson (ws : WorkspaceState) : Json :=
  .obj [ ("totalFiles", .num ws.totalFiles)
       , ("fileTypes", .obj (ws.fileTypes.map (fun kv => (kv.1, Json.num kv.2))))
       , ("recentFiles", .arr (ws.recentFiles.map .str))
       , ("structure", ws.dirStructure) ]

/-- `workspaceState` or JSON `null`, as stored under the `state` key. -/
def optStateToJson : Option WorkspaceState → Json
  | some ws => ws.toJson
  | none => .null

/-- The encoding of one sampler entry as stored JSON. -/
def FileSample.toJson : FileSample → Json
  | .sampled size lines content =>
    .obj [("size", .num size), ("lines", .num lines), ("content", .str content)]
  | .tooLarge size =>
    .obj [("size", .num size), ("note", .str "File too large to include content")]
  | .failed message => .obj [("error", .str message)]

/-- The fields of an object value (`{...v}` spreads an object's own
fields; post-validation the spread workspace is always an object). -/
def jsonFieldsOf : Json → List (String × Json)
  | .obj fs => fs
  | _ => []

/-- The compiled `helpContext` object of `requestHelpTool.execute`
(lines 52-79 of `src/tools/helpRequest.js`): the canonical session
record. -/
def compileHelpContext (args : Json) (env : ExecEnv) : Json :=
  let workspaceState := compiledScanState args env
  let activeFilesContent :=
    captureActiveFilesContent (activeFilePathsOf args)
      (jsonAsStr (getPath args ["workspace", "rootPath"])) env.fileEnv
  .obj
    [ ("session", .obj [ ("sessionId", .str (sessionIdOf args env))
                       , ("timestamp", .str (timestampOf args env)) ])
    , ("conversation", (jsonGet args "conversation").getD .null)
    , ("issue", (jsonGet args "issue").getD .null)
    , ("workspace",
        match jsonGet args "workspace" with
        | some v =>
          if jsTruthy v then
            .obj (jsSetKey (jsonFieldsOf v) "state" (optStateToJson workspaceState))
          else .null
        | none => .null)
    , ("diagnostics", (jsOr (jsonGet args "diagnostics") (some .null)).getD .null)
    , ("solutionsAttempted", (jsOr (jsonGet args "solutionsAttempted") (some (.arr []))).getD .null)
    , ("environment",
        (jsOr (jsonGet args "environment")
          (some (.obj [ ("nodeVersion", .str env.nodeVersion)
                      , ("platform", .str env.platform)
                      , ("cwd", .str env.cwd) ]))).getD .null)
    , ("dependencies", (jsOr (jsonGet args "dependencies") (some (.arr []))).getD .null)
    , ("versionControl", (jsOr (jsonGet args "versionControl") (some .null)).getD .null)
    , ("performance", (jsOr (jsonGet args "performance") (some .null)).getD .null)
    , ("activeFiles",
        .obj [("content", .obj (activeFilesContent.map (fun kv => (kv.1, kv.2.toJson))))]) ]

/-! ### Session store (`logs/help-session-<sessionId>.json` files) -/

/-- The session store: the `logs/` directory as a map from session id
to the stored record (`help-session-<id>.json`). -/
abbrev SessionStore : Type := List (String × Json)

/-- Models `fs.writeJson(sessionLogPath, helpContext)`: persist the
record under the session id, overwriting an existing record. -/
def putSession (store : SessionStore) (sessionId : String) (record : Json) : SessionStore :=
  jsSetKey store sessionId record

/-- Models `fs.pathExists` + `fs.readJson` on the session file. -/
def lookupSession (store : SessionStore) (sessionId : String) : Option Json :=
  List.lookup sessionId store

/-- `getHelpSessionTool.execute`: the structured value the tool
serializes and returns — a not-found result for a missing id, the
stored data otherwise. -/
def getHelpSessionExecute (store : SessionStore) (sessionId : String) : Json :=
  match lookupSession store sessionId with
  | none =>
    .obj [ ("success", .bool false)
         , ("error", .str "Session not found")
         , ("sessionId", .str sessionId) ]
  | some data =>
    .obj [ ("success", .bool true)
         , ("sessionId", .str sessionId)
         , ("data", data) ]

/-- `requestHelpTool.execute`, restricted to its record-building and
persistence effects: the compiled record and the updated store (the
human-readable reply string and Zoom link carry no claim-relevant
data). -/
def requestHelpExecute (args : Json) (env : ExecEnv) (store : SessionStore) :
    Json × SessionStore :=
  let ctx := compileHelpContext args env
  (ctx, putSession store (sessionIdOf args env) ctx)

/-! ### API dispatcher (`src/api/helpRequestAPI.js`,
`sendHelpRequestToAPI`) -/

/-- The `fetch` response: `jsonBody` is the parse the runtime's
`response.json()` produces (`none` when the body is not valid JSON, in
which case `response.text()` returns `textBody`). -/
structure HttpResponse where
  ok : Bool
  status : Nat
  statusText : String
  jsonBody : Option Json
  textBody : String

/-- The normalized result shape of a successful dispatch (fields may be
absent, modelling `undefined`). -/
structure APIResult where
  ticketId : Option Json
  status : Option Json
  priority : Option Json
  ticketUrl : Option Json
  sessionId : Option Json
  message : Option Json
  apiResponse : Json

/-- The `errorDetails` string built for a non-2xx response: the status
line, then the JSON error body pretty-printed with indent 2 when the
body parses, else the raw response text when non-empty. -/
def apiErrorDetails (resp : HttpResponse) : String :=
  let base := "API request failed with status " ++ toString resp.status ++ ": " ++ resp.statusText
  match resp.jsonBody with
  | some body => base ++ "\nAPI Error Response: " ++ jsonStringify2 "" body
  | none =>
    if resp.textBody = "" then base
    else base ++ "\nAPI Error Response: " ++ resp.textBody

/-- The success-path transformation of the parsed API response
(`result.ticket?.id || result.id`, etc.). -/
def apiSuccessResult (helpContext : Json) (result : Json) : APIResult :=
  { ticketId := jsOr (getPath result ["ticket", "id"]) (jsonGet result "id")
    status := jsOr (getPath result ["ticket", "status"]) (jsonGet result "status")
    priority := jsOr (getPath result ["ticket", "priority"]) (jsonGet result "priority")
    ticketUrl := jsonGet result "ticketUrl"
    sessionId := getPath helpContext ["session", "sessionId"]
    message :=
      jsOr (jsonGet result "message")
        (some (.str "Help request ticket created successfully"))
    apiResponse := result }

/-- `sendHelpRequestToAPI` (live mode): exactly one POST of the
transformed ticket; a non-2xx response throws an error carrying
`apiErrorDetails`; a 2xx response with an unparsable body rethrows the
parse failure; otherwise the normalized result is returned. -/
def sendHelpRequestToAPI (helpContext : Json) (resp : HttpResponse) :
    Except String APIResult :=
  if resp.ok then
    match resp.jsonBody with
    | none => .error "Unexpected end of JSON input"
    | some result => .ok (apiSuccessResult helpContext result)
  else .error (apiErrorDetails resp)

/-! ### Dual-mode dispatch

The configuration flag is declared in `src/constants/index.js`
(`HELP_API_CONFIG.useMockAPI`, from `USE_MOCK_API`). -/

/-- The dispatcher configuration from `src/constants/index.js`
(`HELP_API_CONFIG`). -/
structure HelpAPIConfig where
  endpoint : String
  jwtSecret : String
  useMockAPI : Bool

/-- Modelled from the spec: the fixed artificial delay (milliseconds)
of the simulated mode; the mock branch selected by `useMockAPI` is
declared in `src/constants/index.js` but its implementation is not
among the source files. -/
def mockDelayMs : Nat := 1000

/-- Modelled from the spec: the simulated-mode response — a
deterministic-shaped fake `{ticketId, status, ticketUrl, message}`
built without any network access (the mock implementation selected by
`HELP_API_CONFIG.useMockAPI` is not among the source files; shape per
spec sections 4.7 and 8). -/
def mockAPIResponse (helpContext : Json) (cfg : HelpAPIConfig) : APIResult :=
  { ticketId := some (.str ("mock-ticket-" ++ sessionIdStringOf helpContext))
    status := some (.str "mock_success")
    priority := some (.str (transformHelpContextToTicket helpContext).priority)
    ticketUrl := some (.str (cfg.endpoint ++ "/mock-ticket"))
    sessionId := getPath helpContext ["session", "sessionId"]
    message := some (.str "Help request ticket created successfully")
    apiResponse := .null }
where
  sessionIdStringOf (ctx : Json) : String :=
    (jsonAsStr (getPath ctx ["session", "sessionId"])).getD ""

/-- Modelled from the spec: the dual-mode dispatcher — one
configuration-time branch selecting the simulated or the live
strategy. -/
def dispatchHelpRequest (cfg : HelpAPIConfig) (helpContext : Json)
    (resp : HttpResponse) : Except String APIResult :=
  if cfg.useMockAPI then .ok (mockAPIResponse helpContext cfg)
  else sendHelpRequestToAPI helpContext resp

/-! ### Concrete inputs used by witnesses and counterexamples -/

/-- A validated input whose issue description is shorter than 10
characters (but not empty). -/
def c1ShortDescInput : Json :=
  .obj [ ("conversation", .obj [("messages", .arr [])])
       , ("issue", .obj [("description", .str "short")]) ]

/-- A validated input whose issue description contains an urgent
keyword and whose diagnostics carry one error. -/
def c2UrgentErrorsInput : Json :=
  .obj [ ("conversation", .obj [("messages", .arr [])])
       , ("issue", .obj [("description", .str "URGENT: build failing")])
       , ("diagnostics", .obj [("errors", .arr [.obj [("message", .str "boom")]])]) ]

/-- An execution environment whose scanner enumerates exactly one file
(`a.js`). -/
def c3OneFileEnv : ExecEnv :=
  { scanEnv := { pathOk := true, globFiles := some ["a.js"], mtime := fun _ => some 1 }
    fileEnv := fun _ => { present := false, size := 0, content := "", readFails := none }
    freshUuid := "uuid-1", now := "2025-01-01T00:00:00.000Z"
    nodeVersion := "v20.0.0", platform := "linux", cwd := "/" }

/-- An input whose caller-supplied workspace reports `totalFiles: 42`
and `recentFiles: ["caller.txt"]`. -/
def c3CallerArgs : Json :=
  .obj [ ("conversation", .obj [("messages", .arr [])])
       , ("issue", .obj [("description", .str "Build fails")])
       , ("workspace", .obj
           [ ("rootPath", .str "/w"), ("files", .arr [])
           , ("structure", .obj []), ("totalFiles", .num 42)
           , ("recentFiles", .arr [.str "caller.txt"]) ]) ]

/-- The caller-supplied workspace fields of `c3CallerArgs`. -/
def c3CallerWfs : List (String × Json) :=
  [ ("rootPath", .str "/w"), ("files", .arr [])
  , ("structure", .obj []), ("totalFiles", .num 42)
  , ("recentFiles", .arr [.str "caller.txt"]) ]

/-- A help context with a session id, used to exercise the dispatcher. -/
def c4Ctx : Json := .obj [("session", .obj [("sessionId", .str "sess-1")])]

/-- An HTTP 500 response whose body is the JSON object
`{"error": "db down"}`. -/
def c4Resp500 : HttpResponse :=
  { ok := false, status := 500, statusText := "Internal Server Error"
    jsonBody := some (.obj [("error", .str "db down")]), textBody := "" }

/-- A scan environment with two stat-able files of distinct ages. -/
def c6Env : ScanEnv :=
  { pathOk := true, globFiles := some ["b.txt", "a.txt"]
    mtime := fun f => if f = "a.txt" then some 10 else some 3 }

/-- The workspace state `c6Env` produces for root `/w`. -/
def c6Ws : WorkspaceState :=
  { totalFiles := 2, fileTypes := [(".txt", 2)]
    recentFiles := ["a.txt", "b.txt"], dirStructure := .obj [] }

/-- A scan environment in which two files share one modification
time. -/
def c6TieEnv : ScanEnv :=
  { pathOk := true, globFiles := some ["a", "b"], mtime := fun _ => some 5 }

/-- The workspace state `c6TieEnv` produces for root `/w`. -/
def c6TieWs : WorkspaceState :=
  { totalFiles := 2, fileTypes := [("no-extension", 2)]
    recentFiles := ["a", "b"], dirStructure := .obj [] }

/-- Three sampler inputs: a small readable file, a too-large file, and
a file whose read throws. -/
def c7Files : List String := ["ok.txt", "big.bin", "bad.txt"]

/-- The sampler's file-system view for `c7Files`. -/
def c7Fs : String → FileInfo := fun f =>
  if f = "ok.txt" then { present := true, size := 11, content := "hello\nworld", readFails := none }
  else if f = "big.bin" then { present := true, size := 60000, content := "", readFails := none }
  else if f = "bad.txt" then { present := true, size := 3, content := "", readFails := some "EACCES: permission denied" }
  else { present := false, size := 0, content := "", readFails := none }

/-- A file-system view in which every path is absent and nothing
throws. -/
def c7GhostFs : String → FileInfo :=
  fun _ => { present := false, size := 0, content := "", readFails := none }

/-- A scan environment whose root path does not exist. -/
def c8BadPathEnv : ScanEnv :=
  { pathOk := false, globFiles := some [], mtime := fun _ => none }

/-- A scan environment whose enumeration throws. -/
def c8GlobErrorEnv : ScanEnv :=
  { pathOk := true, globFiles := none, mtime := fun _ => none }

/-- A help context with a session id, used to exercise the mock
dispatcher. -/
def c9Ctx : Json := .obj [("session", .obj [("sessionId", .str "sess-9")])]

/-- A mock-mode dispatcher configuration. -/
def c9MockCfg : HelpAPIConfig :=
  { endpoint := "https://api.example.com/help-request"
    jwtSecret := "SAMPLE_JWT", useMockAPI := true }

/-- A live HTTP response, used to show the mock branch ignores the
network entirely. -/
def c9LiveResp : HttpResponse :=
  { ok := true, status := 200, statusText := "OK"
    jsonBody := some (.obj [("id", .str "t-1")]), textBody := "" }

/-- A scan environment with a small mixed file population. -/
def c10Env : ScanEnv :=
  { pathOk := true, globFiles := some ["a.js", "b.js", "README", "src/x.txt"]
    mtime := fun _ => some 1 }

/-- The workspace state `c10Env` produces for root `/w`. -/
def c10Ws : WorkspaceState :=
  { totalFiles := 4
    fileTypes := [(".js", 2), ("no-extension", 1), (".txt", 1)]
    recentFiles := ["a.js", "b.js", "README", "src/x.txt"]
    dirStructure := .obj [] }

/-! ## Theorems -/

/-! ### General string lemmas -/

theorem data_append (a b : String) : (a ++ b).data = a.data ++ b.data := by
  cases a; cases b; rfl

theorem jsStrLen_append (a b : String) : jsStrLen (a ++ b) = jsStrLen a + jsStrLen b := by
  simp [jsStrLen, data_append]

theorem isPrefixOf_append_self (l t : List Char) : List.isPrefixOf l (l ++ t) = true := by
  induction l with
  | nil => simp [List.isPrefixOf]
  | cons c cs ih => simp [List.isPrefixOf, ih]

/-- A string always `includes` its own suffix. -/
theorem jsIncludes_append_self (a b : String) : jsIncludes (a ++ b) b = true := by
  unfold jsIncludes
  rw [List.any_eq_true]
  refine ⟨a.data.length, List.mem_range.mpr ?_, ?_⟩
  · rw [data_append]
    simp
    omega
  · rw [data_append, List.drop_left]
    have h := isPrefixOf_append_self b.data []
    rw [List.append_nil] at h
    exact h

/-! ### C1 and C2: the ticket transformer -/

theorem title_min_aux (t : String) :
    5 ≤ jsStrLen (if jsStrLen t ≥ 5 then t else "Development Help Request") := by
  split
  · next h => exact h
  · decide

theorem desc_min_aux (t : String) :
    10 ≤ jsStrLen
      (if jsStrLen t ≥ 10 then t else "Development assistance requested for user issue") := by
  split
  · next h => exact h
  · decide

/-- C1: the `transformHelpContextToTicket` transformer always produces
a title of length ≥ 5 and a description of length ≥ 10, and the
`transformArgsToTicket` variant always produces a title of length ≥ 5 —
but that variant returns the issue description verbatim, so on the
input whose description is `"short"` it produces a 5-character
description, violating the 10-character minimum its own comment and
the documented API schema require. -/
theorem c1_ticket_minimum_lengths :
    (∀ helpContext : Json,
        5 ≤ jsStrLen (transformHelpContextToTicket helpContext).title
      ∧ 10 ≤ jsStrLen (transformHelpContextToTicket helpContext).description
      ∧ 5 ≤ jsStrLen (transformArgsToTicket helpContext).title)
    ∧ (transformArgsToTicket c1ShortDescInput).description = "short"
    ∧ jsStrLen (transformArgsToTicket c1ShortDescInput).description = 5 :=
  ⟨fun _ => ⟨title_min_aux _, desc_min_aux _, title_min_aux _⟩, rfl, rfl⟩

/-- C2: the `transformHelpContextToTicket` transformer implements
exactly the claimed priority rule (default `medium`, `high` on a
non-empty diagnostics error list, `urgent` on an urgent/critical
keyword — the keyword overriding the error escalation); the
`transformArgsToTicket` variant, however, leaves priority at `medium`
even on an input that carries both the keyword and an error. -/
theorem c2_priority_rule :
    (∀ helpContext : Json,
        (transformHelpContextToTicket helpContext).priority =
          if hasUrgentKeyword helpContext then "urgent"
          else if 0 < diagErrorsLen helpContext then "high"
          else "medium")
    ∧ hasUrgentKeyword c2UrgentErrorsInput = true
    ∧ 0 < diagErrorsLen c2UrgentErrorsInput
    ∧ (transformArgsToTicket c2UrgentErrorsInput).priority = "medium" :=
  ⟨fun _ => rfl, by decide, by decide, rfl⟩

/-! ### C4: live-mode error embedding -/

/-- C4: a non-2xx response makes the live dispatcher fail with the
`errorDetails` error (a single attempt, no retry), and that message
embeds the remote diagnostic payload: the indent-2 stringification of
the parsed JSON error body when the body parses, else the raw response
text when non-empty. -/
theorem c4_live_error_embedding (helpContext : Json) (resp : HttpResponse)
    (h : resp.ok = false) :
    sendHelpRequestToAPI helpContext resp = .error (apiErrorDetails resp)
    ∧ (∀ body, resp.jsonBody = some body →
        jsIncludes (apiErrorDetails resp) (jsonStringify2 "" body) = true)
    ∧ (resp.jsonBody = none → resp.textBody ≠ "" →
        jsIncludes (apiErrorDetails resp) resp.textBody = true) := by
  refine ⟨by simp [sendHelpRequestToAPI, h], ?_, ?_⟩
  · intro body hb
    simp only [apiErrorDetails, hb]
    exact jsIncludes_append_self _ _
  · intro hb hne
    simp only [apiErrorDetails, hb, if_neg hne]
    exact jsIncludes_append_self _ _

/-- C4 witness: an HTTP 500 response with body `{"error": "db down"}`
produces an error whose message contains the literal string
`db down`. -/
theorem c4_live_error_embedding_witness :
    c4Resp500.ok = false
    ∧ sendHelpRequestToAPI c4Ctx c4Resp500 = .error (apiErrorDetails c4Resp500)
    ∧ jsIncludes (apiErrorDetails c4Resp500) "db down" = true :=
  ⟨rfl, (c4_live_error_embedding c4Ctx c4Resp500 rfl).1, by decide⟩

/-! ### C5: session store round-trip -/

theorem lookup_jsSetKey_self {α : Type} (m : List (String × α)) (k : String) (v : α) :
    List.lookup k (jsSetKey m k v) = some v := by
  induction m with
  | nil => simp [jsSetKey, List.lookup]
  | cons hd tl ih =>
    obtain ⟨k', v'⟩ := hd
    by_cases h : k' = k
    · simp [jsSetKey, h, List.lookup]
    · have hbe : (k == k') = false := beq_eq_false_iff_ne.mpr (fun hh => h hh.symm)
      simp [jsSetKey, if_neg h, List.lookup, hbe, ih]

theorem lookup_jsSetKey_ne {α : Type} (m : List (String × α)) (k k' : String) (v : α)
    (h : k' ≠ k) : List.lookup k' (jsSetKey m k v) = List.lookup k' m := by
  have hbe : (k' == k) = false := beq_eq_false_iff_ne.mpr h
  induction m with
  | nil => simp [jsSetKey, List.lookup, hbe]
  | cons hd tl ih =>
    obtain ⟨k₀, v₀⟩ := hd
    by_cases h₀ : k₀ = k
    · subst h₀
      simp [jsSetKey, List.lookup, hbe]
    · simp only [jsSetKey, if_neg h₀]
      rw [List.lookup_cons, List.lookup_cons]
      cases hbe₀ : (k' == k₀) <;> simp [hbe₀, ih]

/-- C5: persisting a record under id `S` and retrieving by `S` returns
a success result whose `data` is deep-equal (structurally equal) to the
persisted record; retrieving an id with no record returns the
`success: false` / `Session not found` result rather than raising; and
`requestHelpTool.execute` persists exactly its compiled record under
its session id. -/
theorem c5_store_roundtrip :
    (∀ (store : SessionStore) (s : String) (rec : Json),
        getHelpSessionExecute (putSession store s rec) s =
          .obj [ ("success", .bool true), ("sessionId", .str s), ("data", rec) ])
    ∧ (∀ (store : SessionStore) (s : String), lookupSession store s = none →
        getHelpSessionExecute store s =
          .obj [ ("success", .bool false), ("error", .str "Session not found")
               , ("sessionId", .str s) ])
    ∧ (∀ (args : Json) (env : ExecEnv) (store : SessionStore),
        (requestHelpExecute args env store).2 =
          putSession store (sessionIdOf args env) (compileHelpContext args env)) := by
  refine ⟨fun store s rec => ?_, fun store s h => ?_, fun args env store => rfl⟩
  · unfold getHelpSessionExecute lookupSession putSession
    rw [lookup_jsSetKey_self]
  · unfold getHelpSessionExecute
    rw [h]

/-- C5 witness: the round-trip and the not-found result at concrete
inputs. -/
theorem c5_store_roundtrip_witness :
    getHelpSessionExecute (putSession [] "S" (.str "r")) "S" =
      .obj [ ("success", .bool true), ("sessionId", .str "S"), ("data", .str "r") ]
    ∧ getHelpSessionExecute [] "missing-id" =
      .obj [ ("success", .bool false), ("error", .str "Session not found")
           , ("sessionId", .str "missing-id") ] :=
  ⟨c5_store_roundtrip.1 [] "S" (.str "r"), c5_store_roundtrip.2.1 [] "missing-id" rfl⟩

/-! ### C8 and C10: scanner failure policy and fileTypes partition -/

/-- Inversion of a successful scan: the result is built from the
enumerated file list. -/
theorem captureWorkspaceState_some_inv (env : ScanEnv) (root : String) (ws : WorkspaceState)
    (h : captureWorkspaceState env root = some ws) :
    ∃ files, env.globFiles = some files
      ∧ ws = { totalFiles := files.length, fileTypes := fileTypesOf files
             , recentFiles := recentFilesOf env files, dirStructure := .obj [] } := by
  unfold captureWorkspaceState at h
  split at h
  · exact absurd h (by simp)
  · cases hg : env.globFiles with
    | none => rw [hg] at h; exact absurd h (by simp)
    | some files =>
      rw [hg] at h
      simp only [Option.some.injEq] at h
      exact ⟨files, rfl, h.symm⟩

/-- C8: the scanner never throws in the model (it is a total function
into `Option`): a falsy or absent root yields `null`, an enumeration
error yields `null`, and every call returns either `null` or a
workspace state. -/
theorem c8_scan_null_policy (env : ScanEnv) (root : String) :
    (root = "" ∨ env.pathOk = false → captureWorkspaceState env root = none)
    ∧ (env.globFiles = none → captureWorkspaceState env root = none)
    ∧ (captureWorkspaceState env root = none ∨
        ∃ ws, captureWorkspaceState env root = some ws) := by
  refine ⟨fun h => ?_, fun h => ?_, ?_⟩
  · unfold captureWorkspaceState
    rw [if_pos h]
  · unfold captureWorkspaceState
    by_cases hc : root = "" ∨ env.pathOk = false
    · rw [if_pos hc]
    · rw [if_neg hc, h]
  · cases hcap : captureWorkspaceState env root with
    | none => exact Or.inl rfl
    | some ws => exact Or.inr ⟨ws, rfl⟩

/-- C8 witness: an inaccessible root and a throwing enumeration both
yield `null`. -/
theorem c8_scan_null_policy_witness :
    captureWorkspaceState c8BadPathEnv "/w" = none
    ∧ captureWorkspaceState c8GlobErrorEnv "/w" = none :=
  ⟨(c8_scan_null_policy c8BadPathEnv "/w").1 (Or.inr rfl),
   (c8_scan_null_policy c8GlobErrorEnv "/w").2.1 rfl⟩

theorem sumCounts_bumpCount (m : List (String × Nat)) (k : String) :
    sumCounts (bumpCount m k) = sumCounts m + 1 := by
  induction m with
  | nil => simp [bumpCount, sumCounts]
  | cons hd tl ih =>
    obtain ⟨k', n⟩ := hd
    by_cases h : k' = k
    · simp [bumpCount, h, sumCounts]
      omega
    · simp only [bumpCount, if_neg h]
      simp [sumCounts] at ih ⊢
      omega

theorem sumCounts_classify_foldl (files : List String) :
    ∀ m, sumCounts (files.foldl classifyStep m) = sumCounts m + files.length := by
  induction files with
  | nil => intro m; simp
  | cons f t ih =>
    intro m
    simp only [List.foldl_cons, List.length_cons]
    rw [ih (classifyStep m f)]
    unfold classifyStep
    rw [sumCounts_bumpCount]
    omega

/-- C10: in every successful scan the `fileTypes` counts sum to
`totalFiles` — each enumerated file is classified under exactly one
extension key (`no-extension` for files without one). -/
theorem c10_fileTypes_total (env : ScanEnv) (root : String) (ws : WorkspaceState)
    (h : captureWorkspaceState env root = some ws) :
    sumCounts ws.fileTypes = ws.totalFiles := by
  obtain ⟨files, -, rfl⟩ := captureWorkspaceState_some_inv env root ws h
  show sumCounts (fileTypesOf files) = files.length
  unfold fileTypesOf
  rw [sumCounts_classify_foldl]
  simp [sumCounts]

/-- C10 witness: the partition invariant at a concrete scan. -/
theorem c10_fileTypes_total_witness : sumCounts c10Ws.fileTypes = c10Ws.totalFiles :=
  c10_fileTypes_total c10Env "/w" c10Ws rfl

/-! ### C6: the recentFiles computation -/

theorem mem_insertByMtime {x p : String × Int} {l : List (String × Int)}
    (h : p ∈ insertByMtime x l) : p = x ∨ p ∈ l := by
  induction l with
  | nil => simpa [insertByMtime] using h
  | cons y ys ih =>
    by_cases hc : y.2 ≤ x.2
    · rw [insertByMtime, if_pos hc] at h
      exact List.mem_cons.mp h
    · rw [insertByMtime, if_neg hc] at h
      rcases List.mem_cons.mp h with h | h
      · exact Or.inr (by simp [h])
      · rcases ih h with h' | h'
        · exact Or.inl h'
        · exact Or.inr (List.mem_cons_of_mem _ h')

theorem pairwise_insertByMtime {x : String × Int} {l : List (String × Int)}
    (h : List.Pairwise (fun a b => b.2 ≤ a.2) l) :
    List.Pairwise (fun a b => b.2 ≤ a.2) (insertByMtime x l) := by
  induction l with
  | nil => simp [insertByMtime]
  | cons y ys ih =>
    rcases List.pairwise_cons.mp h with ⟨hy, hys⟩
    by_cases hc : y.2 ≤ x.2
    · rw [insertByMtime, if_pos hc]
      refine List.pairwise_cons.mpr ⟨?_, h⟩
      intro z hz
      rcases List.mem_cons.mp hz with hz | hz
      · simpa [hz] using hc
      · exact le_trans (hy z hz) hc
    · rw [insertByMtime, if_neg hc]
      refine List.pairwise_cons.mpr ⟨?_, ih hys⟩
      intro z hz
      rcases mem_insertByMtime hz with hz | hz
      · subst hz
        exact le_of_not_le hc
      · exact hy z hz

theorem pairwise_sortByMtimeDescending (l : List (String × Int)) :
    List.Pairwise (fun a b => b.2 ≤ a.2) (sortByMtimeDescending l) := by
  induction l with
  | nil => simp [sortByMtimeDescending]
  | cons x xs ih =>
    rw [sortByMtimeDescending, List.foldr_cons]
    exact pairwise_insertByMtime ih

theorem mem_sortByMtimeDescending {p : String × Int} {l : List (String × Int)}
    (h : p ∈ sortByMtimeDescending l) : p ∈ l := by
  induction l with
  | nil => simp [sortByMtimeDescending] at h
  | cons x xs ih =>
    rw [sortByMtimeDescending, List.foldr_cons] at h
    rcases mem_insertByMtime h with h' | h'
    · simp [h']
    · exact List.mem_cons_of_mem _ (ih h')

theorem mem_fileStatsOf {env : ScanEnv} {files : List String} {p : String × Int}
    (h : p ∈ fileStatsOf env files) :
    p.1 ∈ files.take 20 ∧ env.mtime p.1 = some p.2 := by
  unfold fileStatsOf at h
  rcases List.mem_filterMap.mp h with ⟨f, hf, hmap⟩
  cases hm : env.mtime f with
  | none => rw [hm] at hmap; simp at hmap
  | some t =>
    rw [hm] at hmap
    simp at hmap
    subst hmap
    exact ⟨hf, hm⟩

/-- C6 (amended): `recentFiles` is computed only from the first 20
enumerated files, files whose stat fails are silently dropped, the
result has at most 10 entries, and it is sorted by modification time in
non-increasing (descending, ties allowed) order. -/
theorem c6_recent_files (env : ScanEnv) (root : String) (ws : WorkspaceState)
    (h : captureWorkspaceState env root = some ws) :
    ws.recentFiles.length ≤ 10
    ∧ (∃ files, env.globFiles = some files ∧ ws.recentFiles = recentFilesOf env files
        ∧ ∀ f ∈ ws.recentFiles, f ∈ files.take 20 ∧ env.mtime f = some (mtimeD env f))
    ∧ List.Pairwise (fun a b => mtimeD env b ≤ mtimeD env a) ws.recentFiles := by
  obtain ⟨files, hg, rfl⟩ := captureWorkspaceState_some_inv env root ws h
  have hmem : ∀ f ∈ recentFilesOf env files,
      f ∈ files.take 20 ∧ env.mtime f = some (mtimeD env f) := by
    intro f hf
    unfold recentFilesOf at hf
    rcases List.mem_map.mp hf with ⟨p, hp, hpf⟩
    have hp' := mem_sortByMtimeDescending (List.mem_of_mem_take hp)
    have := mem_fileStatsOf hp'
    subst hpf
    refine ⟨this.1, ?_⟩
    rw [mtimeD, this.2]
    simp
  refine ⟨?_, ⟨files, hg, rfl, hmem⟩, ?_⟩
  · unfold recentFilesOf
    rw [List.length_map]
    exact List.length_take_le 10 _
  · unfold recentFilesOf
    rw [List.pairwise_map]
    have hsorted : List.Pairwise (fun a b : String × Int => b.2 ≤ a.2)
        ((sortByMtimeDescending (fileStatsOf env files)).take 10) :=
      (pairwise_sortByMtimeDescending _).sublist (List.take_sublist 10 _)
    refine hsorted.imp_of_mem ?_
    intro a b ha hb hab
    have ha' := mem_fileStatsOf (mem_sortByMtimeDescending (List.mem_of_mem_take ha))
    have hb' := mem_fileStatsOf (mem_sortByMtimeDescending (List.mem_of_mem_take hb))
    rw [mtimeD, mtimeD, ha'.2, hb'.2]
    simpa using hab

/-- C6 witness: the recent-files properties at a concrete two-file
scan. -/
theorem c6_recent_files_witness :
    c6Ws.recentFiles.length ≤ 10
    ∧ List.Pairwise (fun a b => mtimeD c6Env b ≤ mtimeD c6Env a) c6Ws.recentFiles :=
  ⟨(c6_recent_files c6Env "/w" c6Ws rfl).1, (c6_recent_files c6Env "/w" c6Ws rfl).2.2⟩

/-- C6 counterexample: with two files sharing one modification time the
sort is not strictly descending — adjacent `recentFiles` entries have
equal mtimes, so the claimed strict descent fails. -/
theorem c6_strict_descent_counterexample :
    captureWorkspaceState c6TieEnv "/w" = some c6TieWs
    ∧ c6TieWs.recentFiles = ["a", "b"]
    ∧ c6TieEnv.mtime "a" = some 5
    ∧ c6TieEnv.mtime "b" = some 5 :=
  ⟨rfl, rfl, rfl, rfl⟩

/-! ### C7: the content sampler -/

theorem mem_jsSetKey {α : Type} {m : List (String × α)} {k : String} {v : α} {p : String × α}
    (h : p ∈ jsSetKey m k v) : p = (k, v) ∨ p ∈ m := by
  induction m with
  | nil => simpa [jsSetKey] using h
  | cons hd tl ih =>
    obtain ⟨k', v'⟩ := hd
    by_cases hk : k' = k
    · rw [jsSetKey, if_pos hk] at h
      rcases List.mem_cons.mp h with h₁ | h₁
      · subst hk
        exact Or.inl (by simp [h₁])
      · exact Or.inr (List.mem_cons_of_mem _ h₁)
    · rw [jsSetKey, if_neg hk] at h
      rcases List.mem_cons.mp h with h₁ | h₁
      · exact Or.inr (by simp [h₁])
      · rcases ih h₁ with h₂ | h₂
        · exact Or.inl h₂
        · exact Or.inr (List.mem_cons_of_mem _ h₂)

theorem length_jsSetKey {α : Type} (m : List (String × α)) (k : String) (v : α) :
    (jsSetKey m k v).length ≤ m.length + 1 := by
  induction m with
  | nil => simp [jsSetKey]
  | cons hd tl ih =>
    obtain ⟨k', v'⟩ := hd
    by_cases hk : k' = k
    · simp [jsSetKey, hk]
    · simp only [jsSetKey, if_neg hk, List.length_cons]
      omega

theorem self_mem_jsSetKey {α : Type} (m : List (String × α)) (k : String) (v : α) :
    (k, v) ∈ jsSetKey m k v := by
  induction m with
  | nil => simp [jsSetKey]
  | cons hd tl ih =>
    obtain ⟨k', v'⟩ := hd
    by_cases hk : k' = k
    · subst hk
      simp [jsSetKey]
    · simp only [jsSetKey, if_neg hk]
      exact List.mem_cons_of_mem _ ih

theorem key_mem_jsSetKey {α : Type} {m : List (String × α)} {k₀ : String} {s : α}
    (h : (k₀, s) ∈ m) (k : String) (v : α) : ∃ w, (k₀, w) ∈ jsSetKey m k v := by
  by_cases hk : k₀ = k
  · subst hk
    exact ⟨v, self_mem_jsSetKey m k₀ v⟩
  · induction m with
    | nil => simp at h
    | cons hd tl ih =>
      obtain ⟨k', v'⟩ := hd
      by_cases hk' : k' = k
      · rw [jsSetKey, if_pos hk']
        rcases List.mem_cons.mp h with h₁ | h₁
        · cases h₁
          exact absurd hk' hk
        · exact ⟨s, List.mem_cons_of_mem _ h₁⟩
      · rw [jsSetKey, if_neg hk']
        rcases List.mem_cons.mp h with h₁ | h₁
        · cases h₁
          exact ⟨s, List.mem_cons_self _ _⟩
        · rcases ih h₁ with ⟨w, hw⟩
          exact ⟨w, List.mem_cons_of_mem _ hw⟩

theorem sampler_foldl_length (root : Option String) (fsE : String → FileInfo) :
    ∀ (l : List String) (acc : List (String × FileSample)),
      (l.foldl (sampleStep root fsE) acc).length ≤ acc.length + l.length := by
  intro l
  induction l with
  | nil => intro acc; simp
  | cons f t ih =>
    intro acc
    rw [List.foldl_cons]
    have h1 := ih (sampleStep root fsE acc f)
    have h2 : (sampleStep root fsE acc f).length ≤ acc.length + 1 := by
      unfold sampleStep
      cases sampleOne (fsE (joinPath root f)) with
      | none => simp
      | some s => exact length_jsSetKey acc f s
    simp only [List.length_cons]
    omega

theorem sampler_foldl_mem (root : Option String) (fsE : String → FileInfo) :
    ∀ (l : List String) (acc : List (String × FileSample)) (p : String × FileSample),
      p ∈ l.foldl (sampleStep root fsE) acc →
      p ∈ acc ∨ (p.1 ∈ l ∧ sampleOne (fsE (joinPath root p.1)) = some p.2) := by
  intro l
  induction l with
  | nil => intro acc p h; exact Or.inl (by simpa using h)
  | cons f t ih =>
    intro acc p h
    rw [List.foldl_cons] at h
    rcases ih _ p h with h' | h'
    · unfold sampleStep at h'
      cases hs : sampleOne (fsE (joinPath root f)) with
      | none => rw [hs] at h'; exact Or.inl h'
      | some s =>
        rw [hs] at h'
        rcases mem_jsSetKey h' with h₁ | h₁
        · subst h₁
          exact Or.inr ⟨List.mem_cons_self _ _, hs⟩
        · exact Or.inl h₁
    · exact Or.inr ⟨List.mem_cons_of_mem _ h'.1, h'.2⟩

theorem sampler_foldl_keys (root : Option String) (fsE : String → FileInfo) :
    ∀ (l : List String) (acc : List (String × FileSample)) (k : String),
      (∃ s, (k, s) ∈ acc) → ∃ s, (k, s) ∈ l.foldl (sampleStep root fsE) acc := by
  intro l
  induction l with
  | nil => intro acc k h; simpa using h
  | cons f t ih =>
    intro acc k h
    rw [List.foldl_cons]
    refine ih _ k ?_
    obtain ⟨s, hs⟩ := h
    unfold sampleStep
    cases sampleOne (fsE (joinPath root f)) with
    | none => exact ⟨s, hs⟩
    | some v => exact key_mem_jsSetKey hs f v

theorem sampler_foldl_present (root : Option String) (fsE : String → FileInfo) :
    ∀ (l : List String) (acc : List (String × FileSample)) (f : String),
      f ∈ l → sampleOne (fsE (joinPath root f)) ≠ none →
      ∃ s, (f, s) ∈ l.foldl (sampleStep root fsE) acc := by
  intro l
  induction l with
  | nil => intro acc f h _; simp at h
  | cons a t ih =>
    intro acc f hf hs
    rw [List.foldl_cons]
    rcases List.mem_cons.mp hf with h | h
    · subst h
      cases hone : sampleOne (fsE (joinPath root f)) with
      | none => exact absurd hone hs
      | some s =>
        refine sampler_foldl_keys root fsE t _ f ⟨s, ?_⟩
        unfold sampleStep
        rw [hone]
        exact self_mem_jsSetKey acc f s
    · exact ih _ f h hs

theorem jsStrLen_jsSubstring_le (s : String) (n : Nat) : jsStrLen (jsSubstring s n) ≤ n := by
  show (s.data.take n).length ≤ n
  exact List.length_take_le n _

/-- An entry `sampleOne` produces always has the claimed shape: a
`sampled` entry has size below 50000 and content of at most 2000
characters; a `tooLarge` entry has size at least 50000. -/
theorem sampleOne_shape (info : FileInfo) :
    (∀ size lines content, sampleOne info = some (.sampled size lines content) →
        size < 50000 ∧ jsStrLen content ≤ 2000)
    ∧ (∀ size, sampleOne info = some (.tooLarge size) → 50000 ≤ size) := by
  constructor
  · intro size lines content h
    unfold sampleOne at h
    cases hr : info.readFails with
    | some msg => rw [hr] at h; simp at h
    | none =>
      rw [hr] at h
      by_cases hp : info.present
      · rw [if_pos hp] at h
        by_cases hsz : info.size < 50000
        · rw [if_pos hsz] at h
          simp only [Option.some.injEq, FileSample.sampled.injEq] at h
          obtain ⟨h1, -, h3⟩ := h
          subst h1
          constructor
          · exact hsz
          · rw [← h3]
            exact jsStrLen_jsSubstring_le _ _
        · rw [if_neg hsz] at h
          simp at h
      · rw [if_neg hp] at h
        simp at h
  · intro size h
    unfold sampleOne at h
    cases hr : info.readFails with
    | some msg => rw [hr] at h; simp at h
    | none =>
      rw [hr] at h
      by_cases hp : info.present
      · rw [if_pos hp] at h
        by_cases hsz : info.size < 50000
        · rw [if_pos hsz] at h
          simp at h
        · rw [if_neg hsz] at h
          simp only [Option.some.injEq, FileSample.tooLarge.injEq] at h
          subst h
          omega
      · rw [if_neg hp] at h
        simp at h

/-- C7 (amended): the sampler handles at most the first 5 paths (a hard
cap), every entry it emits has one of the three claimed shapes — with
`content` truncated to 2000 characters below the 50000-byte threshold
and no `content` at or above it — and each file is handled
independently: every one of the first 5 paths whose handling produces
an outcome keeps its entry regardless of what happens to the other
files.  (A path whose file does not exist is skipped without an entry —
see the counterexample.) -/
theorem c7_sampler (files : List String) (root : Option String) (fsE : String → FileInfo) :
    (captureActiveFilesContent (some files) root fsE).length ≤ 5
    ∧ (∀ p ∈ captureActiveFilesContent (some files) root fsE,
        p.1 ∈ files.take 5
        ∧ sampleOne (fsE (joinPath root p.1)) = some p.2
        ∧ (∀ size lines content, p.2 = .sampled size lines content →
            size < 50000 ∧ jsStrLen content ≤ 2000)
        ∧ (∀ size, p.2 = .tooLarge size → 50000 ≤ size))
    ∧ (∀ f ∈ files.take 5, sampleOne (fsE (joinPath root f)) ≠ none →
        ∃ s, (f, s) ∈ captureActiveFilesContent (some files) root fsE)
    ∧ captureActiveFilesContent (some files) root fsE
        = captureActiveFilesContent (some (files.take 5)) root fsE := by
  refine ⟨?_, ?_, ?_, ?_⟩
  · show ((files.take 5).foldl (sampleStep root fsE) []).length ≤ 5
    have h1 := sampler_foldl_length root fsE (files.take 5) []
    simp only [List.length_nil, Nat.zero_add] at h1
    exact le_trans h1 (List.length_take_le 5 files)
  · intro p hp
    rcases sampler_foldl_mem root fsE (files.take 5) [] p hp with h | h
    · simp at h
    · refine ⟨h.1, h.2, ?_, ?_⟩
      · intro size lines content hEq
        have h2 := h.2
        rw [hEq] at h2
        exact (sampleOne_shape _).1 size lines content h2
      · intro size hEq
        have h2 := h.2
        rw [hEq] at h2
        exact (sampleOne_shape _).2 size h2
  · intro f hf hs
    exact sampler_foldl_present root fsE (files.take 5) [] f hf hs
  · show ((files.take 5).foldl (sampleStep root fsE) [])
        = (((files.take 5).take 5)).foldl (sampleStep root fsE) []
    rw [List.take_take]
    norm_num

/-- C7 witness: the sampler's properties at a concrete three-file
input in which one file's read throws and the others still get
entries. -/
theorem c7_sampler_witness :
    (captureActiveFilesContent (some c7Files) none c7Fs).length ≤ 5
    ∧ (∃ s, ("bad.txt", s) ∈ captureActiveFilesContent (some c7Files) none c7Fs) :=
  ⟨(c7_sampler c7Files none c7Fs).1,
   (c7_sampler c7Files none c7Fs).2.2.1 "bad.txt" (by decide) (by decide)⟩

/-- C7 counterexample: a processed path whose file does not exist maps
to none of the three claimed shapes — the sampler emits no entry for it
at all. -/
theorem c7_missing_entry_counterexample :
    captureActiveFilesContent (some ["ghost.txt"]) none c7GhostFs = []
    ∧ List.lookup "ghost.txt" (captureActiveFilesContent (some ["ghost.txt"]) none c7GhostFs)
        = none :=
  ⟨rfl, rfl⟩

/-! ### C3: scan results and caller-supplied workspace fields -/

/-- C3 (amended): the scanner's own output always counts the
enumerated files (`totalFiles = files.length`), but the compiler does
not overwrite the caller's fields — it attaches the scan under a
separate `state` key of the workspace object, preserving the
caller-supplied `totalFiles` and `recentFiles` verbatim. -/
theorem c3_workspace_state_nesting (args : Json) (env : ExecEnv) (wfs : List (String × Json))
    (h : jsonGet args "workspace" = some (.obj wfs)) :
    jsonGet (compileHelpContext args env) "workspace"
      = some (.obj (jsSetKey wfs "state" (optStateToJson (compiledScanState args env))))
    ∧ (∀ ws, compiledScanState args env = some ws →
        ∃ files, env.scanEnv.globFiles = some files ∧ ws.totalFiles = files.length)
    ∧ List.lookup "totalFiles"
        (jsSetKey wfs "state" (optStateToJson (compiledScanState args env)))
        = List.lookup "totalFiles" wfs
    ∧ List.lookup "recentFiles"
        (jsSetKey wfs "state" (optStateToJson (compiledScanState args env)))
        = List.lookup "recentFiles" wfs := by
  refine ⟨?_, ?_, lookup_jsSetKey_ne wfs "state" "totalFiles" _ (by decide),
    lookup_jsSetKey_ne wfs "state" "recentFiles" _ (by decide)⟩
  · have e : jsonGet (compileHelpContext args env) "workspace"
        = some (match jsonGet args "workspace" with
          | some v =>
            if jsTruthy v then
              Json.obj (jsSetKey (jsonFieldsOf v) "state"
                (optStateToJson (compiledScanState args env)))
            else Json.null
          | none => Json.null) := rfl
    rw [e, h]
    rfl
  · intro ws hws
    unfold compiledScanState at hws
    cases hr : scanRootOf args with
    | none => rw [hr] at hws; simp at hws
    | some r =>
      rw [hr] at hws
      obtain ⟨files, hg, hws'⟩ := captureWorkspaceState_some_inv env.scanEnv r ws hws
      exact ⟨files, hg, by rw [hws']⟩

/-- C3 witness: the nesting and preservation facts at a concrete
call. -/
theorem c3_workspace_state_nesting_witness :
    jsonGet (compileHelpContext c3CallerArgs c3OneFileEnv) "workspace"
      = some (.obj (jsSetKey c3CallerWfs "state"
          (optStateToJson (compiledScanState c3CallerArgs c3OneFileEnv))))
    ∧ List.lookup "totalFiles"
        (jsSetKey c3CallerWfs "state"
          (optStateToJson (compiledScanState c3CallerArgs c3OneFileEnv)))
        = List.lookup "totalFiles" c3CallerWfs :=
  ⟨(c3_workspace_state_nesting c3CallerArgs c3OneFileEnv c3CallerWfs rfl).1,
   (c3_workspace_state_nesting c3CallerArgs c3OneFileEnv c3CallerWfs rfl).2.2.1⟩

/-- C3 counterexample: with a caller-supplied `totalFiles: 42` and a
scanner that enumerates exactly one file, the compiled record's
workspace still reports the caller's 42 (and the caller's
`recentFiles`): the scanner's count lives under the separate `state`
key and overwrites nothing. -/
theorem c3_caller_totalFiles_counterexample :
    getPath (compileHelpContext c3CallerArgs c3OneFileEnv) ["workspace", "totalFiles"]
      = some (.num 42)
    ∧ getPath (compileHelpContext c3CallerArgs c3OneFileEnv) ["workspace", "state", "totalFiles"]
      = some (.num 1)
    ∧ getPath (compileHelpContext c3CallerArgs c3OneFileEnv) ["workspace", "recentFiles"]
      = some (.arr [.str "caller.txt"])
    ∧ c3OneFileEnv.scanEnv.globFiles = some ["a.js"] :=
  ⟨rfl, rfl, rfl, rfl⟩

/-! ### C9: the simulated dispatch mode -/

/-- C9: with the configuration flag `useMockAPI` set, dispatch returns
the deterministic mock result — a well-formed
`{ticketId, status: "mock_success", ticketUrl, message}` — and the
outcome is independent of the HTTP response, i.e. no network access is
consulted. -/
theorem c9_mock_mode (cfg : HelpAPIConfig) (helpContext : Json) (resp resp' : HttpResponse)
    (h : cfg.useMockAPI = true) :
    dispatchHelpRequest cfg helpContext resp = .ok (mockAPIResponse helpContext cfg)
    ∧ dispatchHelpRequest cfg helpContext resp = dispatchHelpRequest cfg helpContext resp'
    ∧ (mockAPIResponse helpContext cfg).ticketId.isSome = true
    ∧ (mockAPIResponse helpContext cfg).status = some (.str "mock_success")
    ∧ (mockAPIResponse helpContext cfg).ticketUrl.isSome = true
    ∧ (mockAPIResponse helpContext cfg).message
        = some (.str "Help request ticket created successfully") := by
  refine ⟨?_, ?_, rfl, rfl, rfl, rfl⟩
  · simp [dispatchHelpRequest, h]
  · simp [dispatchHelpRequest, h]

/-- C9 witness: the mock dispatch at a concrete configuration and
context, fed a live-looking HTTP response it must ignore. -/
theorem c9_mock_mode_witness :
    c9MockCfg.useMockAPI = true
    ∧ dispatchHelpRequest c9MockCfg c9Ctx c9LiveResp = .ok (mockAPIResponse c9Ctx c9MockCfg)
    ∧ (mockAPIResponse c9Ctx c9MockCfg).status = some (.str "mock_success") :=
  ⟨rfl, (c9_mock_mode c9MockCfg c9Ctx c9LiveResp c9LiveResp rfl).1,
   (c9_mock_mode c9MockCfg c9Ctx c9LiveResp c9LiveResp rfl).2.2.2.1⟩

end MCP
